import Mathlib

/-! Shallow embedding of the WebX runtime core (webx-net/webx) in Lean 4, for
checking the natural-language specification against the code.

The embedding follows the Rust sources under src/:
- src/file/webx.rs        (module AST, url paths, route keys)
- src/file/parser.rs      (only the url-path wildcard construction is needed)
- src/analysis/routes.rs  (route flattening, duplicate and invalid route analysis)
- src/engine/runtime.rs   (runtime actor state, url matching, route execution)
- src/engine/http.rs      (response construction)

Conventions:
- Machine integers are Nat/Int; `u32`/`usize` values never overflow in the
  claims considered.
- Rust `HashMap`s are modelled as insertion-ordered association lists with
  key-replacing insert; all claim-relevant observations (lookup, key set,
  emptiness of filters) agree with the hash map.
- A Rust computation that can panic (`unwrap`, `assert!`, `todo!`) is
  embedded in `Panics α := Option α`, where `none` is the panic.
- The embedded JavaScript engine (`deno_core::JsRuntime`) and the external
  `regex` crate are not Rust code of this repository; their use is
  abstracted by oracle parameters (`hexec` for handler calls, `rnew` for
  regex compilation) that the theorems quantify over, except where a claim
  is decided by a specific documented behavior of the external crate.
-/

set_option maxRecDepth 4000
set_option autoImplicit false

namespace WebX

/-- A Rust computation that may panic (`unwrap`, `assert!`, `todo!`):
`none` models the panic. -/
abbrev Panics (α : Type) : Type := Option α

/-- HTTP method: models `hyper::Method` restricted to the nine standard
methods that the WebX parser can produce (dispatch table in
src/file/parser.rs). -/
inductive HttpMethod where
  | GET | POST | PUT | DELETE | PATCH | HEAD | OPTIONS | CONNECT | TRACE
deriving DecidableEq, BEq

/-- Embedding of `WXTypedIdentifier` (src/file/webx.rs): a `name: type` pair. -/
structure WXTypedIdentifier where
  name : String
  type_ : String
deriving DecidableEq, BEq

/-- Embedding of `WXUrlPathSegment` (src/file/webx.rs): Literal, Parameter or Regex
(name, pattern) segment of a url path. -/
inductive WXUrlPathSegment where
  | literal (s : String)
  | parameter (id : WXTypedIdentifier)
  | regex (name : String) (pattern : String)
deriving DecidableEq, BEq

/-- Embedding of `WXUrlPath` (src/file/webx.rs) is a newtype over `Vec<WXUrlPathSegment>`
with structural equality and hash on the segments; it is embedded as the
segment list itself. -/
abbrev WXUrlPath := List WXUrlPathSegment

/-- Embedding of `WXUrlPath::combine` (src/file/webx.rs): append the segment lists. -/
def WXUrlPath.combine (p other : WXUrlPath) : WXUrlPath := p ++ other

/-- Embedding of `WXUrlPath::segments` (src/file/webx.rs): the number of segments. -/
def WXUrlPath.segments (p : WXUrlPath) : Nat := p.length

/-- Embedding of `WXROOT_PATH` (src/file/webx.rs): the empty url path. -/
def WXROOT_PATH : WXUrlPath := []

/-- The runtime stores JavaScript numbers as Rust `f64`
(`WXRTValue::Number`). IEEE-754 arithmetic is outside this shallow
embedding; a number is carried by the decimal string its `Display`
implementation renders, which is the only observation the runtime core
makes of it (`to_raw` and `to_js_string` both call `f.to_string()`). -/
structure F64 where
  render : String
deriving DecidableEq, BEq

/-- Embedding of `WXRTValue` (src/engine/runtime.rs): runtime values in WebX. -/
inductive WXRTValue where
  | str (s : String)
  | number (x : F64)
  | boolean (b : Bool)
  | null
  | array (elems : List WXRTValue)
  | object (fields : List (String × WXRTValue))

mutual

/-- Embedding of `WXRTValue::to_raw` (src/engine/runtime.rs): render a runtime value as a
raw string; strings are not quoted and nothing is escaped. -/
def WXRTValue.to_raw : WXRTValue → String
  | .str s => s
  | .number x => x.render
  | .boolean b => toString b
  | .null => "null"
  | .array elems => "[" ++ String.intercalate (", ") (WXRTValue.toRawList elems) ++ "]"
  | .object fields => "\x7b" ++ String.intercalate (", ") (WXRTValue.toRawFields fields) ++ "\x7d"

/-- Embedding of `to_raw` mapped over the elements of an array value. -/
def WXRTValue.toRawList : List WXRTValue → List String
  | [] => []
  | v :: vs => v.to_raw :: WXRTValue.toRawList vs

/-- Embedding of `to_raw` mapped over the fields of an object value, rendering each as
`key: value`. -/
def WXRTValue.toRawFields : List (String × WXRTValue) → List String
  | [] => []
  | (k, v) :: vs => (k ++ ": " ++ v.to_raw) :: WXRTValue.toRawFields vs

end

/-- Embedding of `WXRTContext` (src/engine/runtime.rs): request-scoped bindings. The Rust
`HashMap<String, WXRTValue>` is modelled as an insertion-ordered association
list with key-replacing insert. -/
structure WXRTContext where
  values : List (String × WXRTValue)

/-- Embedding of `WXRTContext::new` (src/engine/runtime.rs). -/
def WXRTContext.new : WXRTContext := ⟨[]⟩

/-- Embedding of `WXRTContext::bind` (src/engine/runtime.rs): `HashMap::insert`,
replacing the value under an existing key. -/
def WXRTContext.bind (ctx : WXRTContext) (ident : String) (v : WXRTValue) : WXRTContext :=
  if ctx.values.any (fun e => e.1 == ident) then
    ⟨ctx.values.map (fun e => if e.1 == ident then (ident, v) else e)⟩
  else
    ⟨ctx.values ++ [(ident, v)]⟩

/-- Embedding of `WXRTContext::resolve` (src/engine/runtime.rs). -/
def WXRTContext.resolve (ctx : WXRTContext) (ident : String) : Option WXRTValue :=
  (ctx.values.find? (fun e => e.1 == ident)).map (fun e => e.2)

/-- Embedding of `WXPathResolution` (src/engine/runtime.rs). Constructor names: `NoneR`,
`Perfect`, `PartialM` stand for the Rust variants None, Perfect, Partial. -/
inductive WXPathResolution where
  | NoneR
  | Perfect (bindings : WXRTContext)
  | PartialM (bindings : WXRTContext)

/-- Character-level split on `/` with an accumulator: the Rust
`str::split('/')` iterator, written by structural recursion so that
concrete request paths evaluate definitionally. -/
def splitSlashAux : List Char → List Char → List String
  | [], acc => [String.mk acc.reverse]
  | c :: rest, acc =>
    if c == '/' then String.mk acc.reverse :: splitSlashAux rest []
    else splitSlashAux rest (c :: acc)

/-- Embedding of `url.path().split('/')` as a list of pieces. -/
def splitSlash (s : String) : List String :=
  splitSlashAux s.toList []

/-- Embedding of `WXUrlPath::get_url_segments` (src/engine/runtime.rs): split the request
path on `/`, skip the first piece, drop empty pieces. -/
def getUrlSegments (path : String) : List String :=
  ((splitSlash path).drop 1).filter (fun s => !s.isEmpty)

/-- The `match_segment` closure of `WXUrlPath::matches`
(src/engine/runtime.rs), with the mutable `bindings` map threaded
explicitly. `rnew` abstracts `regex::Regex::new`, returning `none` when
compilation fails, in which case the `.unwrap()` in the source panics. -/
def matchSegment (rnew : String → Option (String → Bool)) (bindings : WXRTContext)
    (seg : WXUrlPathSegment) (part : String) : Panics (Bool × WXRTContext) :=
  match seg with
  | .literal l => some (l == part, bindings)
  | .parameter id => some (true, bindings.bind id.name (.str part))
  | .regex rname rpat =>
    match rnew rpat with
    | none => none
    | some re =>
      if re part then some (true, bindings.bind rname (.str part))
      else some (false, bindings)

/-- Embedding of `Iterator::all(match_segment)` over zipped (pattern segment, request
part) pairs: short-circuits on the first mismatch, accumulating bindings of
the segments actually evaluated. -/
def allMatch (rnew : String → Option (String → Bool)) :
    List (WXUrlPathSegment × String) → WXRTContext → Panics (Bool × WXRTContext)
  | [], bindings => some (true, bindings)
  | (seg, part) :: rest, bindings =>
    match matchSegment rnew bindings seg part with
    | none => none
    | some (ok, bindings') =>
      if ok then allMatch rnew rest bindings' else some (false, bindings')

/-- Embedding of `WXUrlPath::matches` (src/engine/runtime.rs). The request uri is given
by its path string (`hyper::Uri::path`). In the over-long-pattern branch the
request parts are padded with `""` (`chain(std::iter::repeat(&""))`), the
segment matches are evaluated first, and only then is the
`url_count == self.segments() - 1` condition checked, exactly as in the
source `&&` chain. -/
def wxMatches (rnew : String → Option (String → Bool)) (p : WXUrlPath)
    (uriPath : String) : Panics WXPathResolution :=
  let url := getUrlSegments uriPath
  let url_count := url.length
  if p.segments == url_count then
    match allMatch rnew (p.zip url) WXRTContext.new with
    | none => none
    | some (ok, bindings) =>
      if ok then some (.Perfect bindings) else some .NoneR
  else if p.segments > url_count then
    match allMatch rnew (p.zip (url ++ List.replicate (p.segments - url_count) "")) WXRTContext.new with
    | none => none
    | some (ok, bindings) =>
      if ok && (url_count == p.segments - 1) then some (.PartialM bindings) else some .NoneR
  else
    some .NoneR

/-- Specification-side per-segment match predicate, as the claim words it:
Literal by string equality, Parameter always, Regex by pattern match under a
total regex-match oracle `rm`. -/
def segMatchSpec (rm : String → String → Bool) : WXUrlPathSegment → String → Bool
  | .literal l, part => l == part
  | .parameter _, _ => true
  | .regex _ rpat, part => rm rpat part

/-- A total regex oracle `rm` packaged as an always-succeeding
`regex::Regex::new`. -/
def rnewOf (rm : String → String → Bool) : String → Option (String → Bool) :=
  fun rpat => some (fun part => rm rpat part)

/-- Modelled from the spec: `WXLiteralValue` is consumed throughout src/
(parser and runtime) but its declaration is not among the provided sources.
Spec 4.1 "Literals": JSON-like string, integer-and-decimal number,
true/false, null, bracketed arrays, braced objects, and bare identifiers as
identifier-literals. The constructor shapes follow the construction sites in
src/file/parser.rs `parse_literal` (`Number(u32, u32)` from integer and
fraction digits) and the match arms of `eval_literal` in
src/engine/runtime.rs. -/
inductive WXLiteralValue where
  | str (s : String)
  | number (integer : Nat) (fraction : Nat)
  | boolean (b : Bool)
  | null
  | array (values : List WXLiteralValue)
  | object (fields : List (String × WXLiteralValue))
  | identifier (name : String)

/-- Modelled from the spec: `WXRouteHandler` (a pre/post handler call in a
route declaration) is consumed in src/ but not declared there. Spec 4.1
"Handler-call list": `name( arg, arg, … ) [: output-binding]` where
arguments are literals; `WXRTHandlerCall::from_handler`
(src/engine/runtime.rs) copies exactly the fields name, args, output. -/
structure WXRouteHandler where
  name : String
  args : List WXLiteralValue
  output : Option String

/-- Embedding of `WXModulePath` (src/file/webx.rs) holds a normalized `PathBuf` plus its
string relative to the working directory; both components are determined by
the canonical path string, which is all the runtime compares and stores, so
the embedding keeps a single string. -/
abbrev WXModulePath := String

/-- Embedding of `WXInfoField` (src/file/webx.rs): source location of a declaration. -/
structure WXInfoField where
  path : WXModulePath
  line : Nat
deriving DecidableEq, BEq

/-- Embedding of `WXBodyType` (src/file/webx.rs): Ts for `{…}` blocks, Tsx for `(…)`. -/
inductive WXBodyType where
  | ts
  | tsx
deriving DecidableEq, BEq

/-- Embedding of `WXBody` (src/file/webx.rs). -/
structure WXBody where
  body_type : WXBodyType
  body : String
deriving DecidableEq, BEq

/-- Embedding of `WXRouteReqBody` (src/file/webx.rs): request body shape, either a model
reference or an inline definition. -/
inductive WXRouteReqBody where
  | modelReference (name : String)
  | definition (name : String) (fields : List WXTypedIdentifier)
deriving DecidableEq, BEq

/-- Embedding of `WXModel` (src/file/webx.rs). -/
structure WXModel where
  name : String
  fields : List WXTypedIdentifier

/-- Embedding of `WXRoute` (src/file/webx.rs). -/
structure WXRoute where
  info : WXInfoField
  method : HttpMethod
  path : WXUrlPath
  body_format : Option WXRouteReqBody
  pre_handlers : List WXRouteHandler
  body : Option WXBody
  post_handlers : List WXRouteHandler

/-- The hand-written `PartialEq for WXRoute` (src/file/webx.rs) compares
only the method and the path; `Hash` hashes the same two fields. This is
the equality under which routes act as `HashMap` keys. -/
def wxRouteEq (a b : WXRoute) : Bool :=
  a.method == b.method && a.path == b.path

/-- Embedding of `WXHandler` (src/file/webx.rs): a named handler definition. -/
structure WXHandler where
  name : String
  params : List WXTypedIdentifier
  body : WXBody

/-- Embedding of `WXScope` (src/file/webx.rs): a url-path-prefixed block with includes,
global script text, models, handlers, routes and nested scopes. -/
inductive WXScope where
  | mk (path : WXUrlPath) (includes : List String) (global_ts : String)
      (models : List WXModel) (handlers : List WXHandler)
      (routes : List WXRoute) (scopes : List WXScope)

def WXScope.path : WXScope → WXUrlPath
  | .mk p _ _ _ _ _ _ => p

def WXScope.global_ts : WXScope → String
  | .mk _ _ g _ _ _ _ => g

def WXScope.routes : WXScope → List WXRoute
  | .mk _ _ _ _ _ r _ => r

def WXScope.scopes : WXScope → List WXScope
  | .mk _ _ _ _ _ _ s => s

/-- Embedding of `WXModule` (src/file/webx.rs): a canonical path plus a root scope. -/
structure WXModule where
  path : WXModulePath
  scope : WXScope

/-- Embedding of `FlatRoutes` (src/analysis/routes.rs):
`HashMap<(WXRoute, WXUrlPath), Vec<WXInfoField>>`, embedded as an
insertion-ordered association list. Key equality is the derived pair
equality over the hand-written route equality `wxRouteEq` and structural
url-path equality. -/
abbrev FlatRoutes := List ((WXRoute × WXUrlPath) × List WXInfoField)

/-- Key equality of the `FlatRoutes` map. -/
def flatKeyEq (a b : WXRoute × WXUrlPath) : Bool :=
  wxRouteEq a.1 b.1 && a.2 == b.2

/-- The `routes.entry(route_key)` update in `flatten_scopes`
(src/analysis/routes.rs): a vacant key is inserted with the singleton
location list, an occupied key has the location pushed. -/
def flatInsert (routes : FlatRoutes) (key : WXRoute × WXUrlPath)
    (info : WXInfoField) : FlatRoutes :=
  if routes.any (fun e => flatKeyEq e.1 key) then
    routes.map (fun e => if flatKeyEq e.1 key then (e.1, e.2 ++ [info]) else e)
  else
    routes ++ [(key, [info])]

mutual

/-- Embedding of `flatten_scopes` (src/analysis/routes.rs): emit `(route, prefix ++ own
path)` keys for the scope routes, then recurse into the nested scopes with
the extended prefix. The `module_name` argument is threaded exactly as in
the source, which never reads it. -/
def flattenScopes (module_name : String) : WXScope → WXUrlPath → FlatRoutes → FlatRoutes
  | .mk _ _ _ _ _ rs ss, pfx, routes =>
    let routes :=
      rs.foldl (fun acc route =>
        flatInsert acc (route, pfx.combine route.path) route.info) routes
    flattenScopesList module_name ss pfx routes

/-- The `for sub_scope in scope.scopes` loop of `flatten_scopes`. -/
def flattenScopesList (module_name : String) :
    List WXScope → WXUrlPath → FlatRoutes → FlatRoutes
  | [], _, routes => routes
  | s :: rest, pfx, routes =>
    flattenScopesList module_name rest pfx
      (flattenScopes module_name s (pfx.combine s.path) routes)

end

/-- Embedding of `extract_flat_routes` (src/analysis/routes.rs). -/
def extractFlatRoutes (modules : List WXModule) : FlatRoutes :=
  modules.foldl (fun acc m => flattenScopes m.path m.scope WXROOT_PATH acc) []

/-- Embedding of `WXRuntimeError` (src/engine/runtime.rs). -/
structure WXRuntimeError where
  code : Int
  message : String
deriving DecidableEq, BEq

/-- Embedding of `ERROR_DUPLICATE_ROUTE` (src/reporting/error.rs). -/
def ERROR_DUPLICATE_ROUTE : Int := 6

/-- Embedding of `ERROR_INVALID_ROUTE` (src/reporting/error.rs). -/
def ERROR_INVALID_ROUTE : Int := 7

/-- Embedding of `extract_duplicate_routes` (src/analysis/routes.rs): the entries whose
location list has more than one element. The source maps each such entry to
a terminal-colored diagnostic string; the embedding keeps the entry itself,
diagnostics being irrelevant to the analysis result. -/
def extractDuplicateRoutes (routes : FlatRoutes) : FlatRoutes :=
  routes.filter (fun e => decide (1 < e.2.length))

/-- Embedding of `analyze_duplicate_routes` (src/analysis/routes.rs). The source message
is the joined diagnostic list under a fixed prefix; the embedding keeps the
fixed prefix. -/
def analyzeDuplicateRoutes (modules : List WXModule) :
    Except WXRuntimeError FlatRoutes :=
  let routes := extractFlatRoutes modules
  if !(extractDuplicateRoutes routes).isEmpty then
    .error ⟨ERROR_DUPLICATE_ROUTE, "Duplicate routes detected"⟩
  else
    .ok routes

/-- The filter predicate of `extract_invalid_routes`
(src/analysis/routes.rs): GET/DELETE with a body shape, or POST/PUT without
one; other methods unconstrained. -/
def routeInvalid (r : WXRoute) : Bool :=
  match r.method with
  | .GET | .DELETE => r.body_format.isSome
  | .POST | .PUT => r.body_format.isNone
  | _ => false

/-- Embedding of `extract_invalid_routes` (src/analysis/routes.rs): filter the invalid
entries, then build a diagnostic for each. The diagnostic calls
`route.body_format.as_ref().unwrap()` and `info.first().unwrap()`; either
`unwrap` on a missing value panics, which the embedding models by mapping
each entry through the corresponding options (`mapM` returns `none` exactly
when some entry panics). The diagnostic text itself is kept as the entry. -/
def extractInvalidRoutes (routes : FlatRoutes) :
    Panics (List (WXRoute × WXUrlPath)) :=
  (routes.filter (fun e => routeInvalid e.1.1)).mapM
    (fun e =>
      match e.1.1.body_format, e.2 with
      | some _, _ :: _ => some e.1
      | _, _ => none)

/-- Embedding of `analyze_invalid_routes` (src/analysis/routes.rs). -/
def analyzeInvalidRoutes (modules : List WXModule) :
    Panics (Except WXRuntimeError Unit) :=
  match extractInvalidRoutes (extractFlatRoutes modules) with
  | none => none
  | some invalid =>
    if !invalid.isEmpty then
      some (.error ⟨ERROR_INVALID_ROUTE, "Invalid routes detected"⟩)
    else
      some (.ok ())

/-- Embedding of `verify_model_routes` (src/analysis/routes.rs): duplicate analysis, then
invalid-route analysis, returning the flat routes. -/
def verifyModelRoutes (modules : List WXModule) :
    Panics (Except WXRuntimeError FlatRoutes) :=
  match analyzeDuplicateRoutes modules with
  | .error e => some (.error e)
  | .ok routes =>
    match analyzeInvalidRoutes modules with
    | none => none
    | some (.error e) => some (.error e)
    | some (.ok _) => some (.ok routes)

/-- Embedding of `WXMode` (src/runner.rs): development with a debug level, or production.
The debug level only steers logging in the embedded claims and is kept as a
number. -/
inductive WXMode where
  | dev (level : Nat)
  | prod

/-- Embedding of `WXMode::is_dev`. -/
def WXMode.is_dev : WXMode → Bool
  | .dev _ => true
  | .prod => false

/-- An HTTP response (`http::Response<String>` as built in
src/engine/http.rs): status, header list in insertion order, body. -/
structure HttpResponse where
  status : Nat
  headers : List (String × String)
  body : String
deriving DecidableEq, BEq

/-- Header lookup by name (first match). -/
def HttpResponse.header (r : HttpResponse) (name : String) : Option String :=
  (r.headers.find? (fun h => h.1 == name)).map (fun h => h.2)

/-- Embedding of `responses::ok_html` (src/engine/http.rs). `now` stands for the
`chrono::Utc::now().to_rfc2822()` date string; `Content-Length` is the
UTF-8 byte length of the body. -/
def okHtml (now : String) (body : String) : HttpResponse :=
  ⟨200,
   [("Access-Control-Allow-Origin", "*"),
    ("Content-Type", "text/html; charset=utf-8"),
    ("Content-Length", toString body.utf8ByteSize),
    ("Connection", "close"),
    ("Server", "webx"),
    ("Date", now),
    ("Cache-Control", "no-cache"),
    ("Pragma", "no-cache"),
    ("Expires", "0")],
   body⟩

/-- Development-mode body of `responses::not_found_default_webx`
(src/engine/http.rs), split around the interpolated crate version. -/
def notFoundBodyDev (version : String) : String :=
  "\n                <html>\n                    <head>\n                        <title>404 Not Found</title>\n                    </head>\n                    <body>\n                        <h1>404 Not Found</h1>\n                        <p>The requested URL was not found on this server.</p>\n                        <hr>\n                        <address>webx/0.1.0 (Unix) (webx/"
  ++ version
  ++ ")</address>\n                    </body>\n                </html>\n            "

/-- Production-mode body of `responses::not_found_default_webx`
(src/engine/http.rs). -/
def notFoundBodyProd : String :=
  "\n                <html>\n                    <head>\n                        <title>404 Not Found</title>\n                    </head>\n                    <body>\n                        <h1>404 Not Found</h1>\n                        <p>The requested URL was not found on this server.</p>\n                        <hr>\n                        <address>webx/0.1.0 (Unix)</address>\n                    </body>\n                </html>\n            "

/-- Embedding of `responses::not_found_default_webx` (src/engine/http.rs). -/
def notFoundDefaultWebx (mode : WXMode) (version now : String) : HttpResponse :=
  let body := if mode.is_dev then notFoundBodyDev version else notFoundBodyProd
  ⟨404,
   [("Access-Control-Allow-Origin", "*"),
    ("Content-Type", "text/html; charset=utf-8"),
    ("Content-Length", toString body.utf8ByteSize),
    ("Connection", "close"),
    ("Server", "webx"),
    ("Date", now),
    ("Cache-Control", "no-cache"),
    ("Pragma", "no-cache"),
    ("Expires", "0")],
   body⟩

/-- Development-mode body of
`responses::internal_server_error_default_webx` (src/engine/http.rs), split
around the interpolated error message and crate version. -/
def internalServerErrorBodyDev (message version : String) : String :=
  "\n                <html>\n                    <head>\n                        <title>500 Internal Server Error</title>\n                    </head>\n                    <body>\n                        <h1>500 Internal Server Error</h1>\n                        <p>\n                            The server encountered an internal error and was unable to complete your request. <br>\n                            Either the server is overloaded or there is an error in the application.\n                        </p>\n                        <h2>Debugging Information</h2>\n                        <p>\n                            <strong>Message:</strong>\n                            <pre>\n"
  ++ message
  ++ "\n                            </pre>\n                        </p>\n                        <hr>\n                        <address>webx/"
  ++ version
  ++ " development mode</address>\n                    </body>\n                </html>\n            "

/-- Production-mode body of
`responses::internal_server_error_default_webx` (src/engine/http.rs). -/
def internalServerErrorBodyProd : String :=
  "\n                <html>\n                    <head>\n                        <title>500 Internal Server Error</title>\n                    </head>\n                    <body>\n                        <h1>500 Internal Server Error</h1>\n                        <p>\n                            The server encountered an internal error and was unable to complete your request. <br>\n                            Either the server is overloaded or there is an error in the application.\n                        </p>\n                        <hr>\n                        <address>webx prouction mode</address>\n                    </body>\n                </html>\n            "

/-- Embedding of `responses::internal_server_error_default_webx` (src/engine/http.rs). -/
def internalServerErrorDefaultWebx (mode : WXMode) (version now message : String) :
    HttpResponse :=
  let body :=
    if mode.is_dev then internalServerErrorBodyDev message version
    else internalServerErrorBodyProd
  ⟨500,
   [("Access-Control-Allow-Origin", "*"),
    ("Content-Type", "text/html; charset=utf-8"),
    ("Content-Length", toString body.utf8ByteSize),
    ("Connection", "close"),
    ("Server", "webx"),
    ("Date", now),
    ("Cache-Control", "no-cache"),
    ("Pragma", "no-cache"),
    ("Expires", "0")],
   body⟩

/-- Embedding of `WXRTHandlerCall` (src/engine/runtime.rs). -/
structure WXRTHandlerCall where
  name : String
  args : List WXLiteralValue
  output : Option String

/-- Embedding of `WXRTHandlerCall::from_handler` (src/engine/runtime.rs). -/
def WXRTHandlerCall.from_handler (h : WXRouteHandler) : WXRTHandlerCall :=
  ⟨h.name, h.args, h.output⟩

/-- Embedding of `WXRTRoute` (src/engine/runtime.rs): a compiled runtime route. -/
structure WXRTRoute where
  module_path : WXModulePath
  body : Option WXBody
  pre_handlers : List WXRTHandlerCall
  post_handlers : List WXRTHandlerCall

/-- Embedding of `WXRouteMap::compile_route` (src/engine/runtime.rs); it never fails. -/
def compileRoute (route : WXRoute) (module_path : WXModulePath) :
    Except WXRuntimeError WXRTRoute :=
  .ok ⟨module_path, route.body,
       route.pre_handlers.map WXRTHandlerCall.from_handler,
       route.post_handlers.map WXRTHandlerCall.from_handler⟩

/-- Embedding of `WXRouteMap` (src/engine/runtime.rs):
`HashMap<Method, HashMap<WXUrlPath, WXRTRoute>>` as nested insertion-ordered
association lists. -/
abbrev WXRouteMap := List (HttpMethod × List (WXUrlPath × WXRTRoute))

/-- Embedding of `HashMap::insert` on the inner method map (key-replacing). -/
def methodMapInsert (inner : List (WXUrlPath × WXRTRoute)) (p : WXUrlPath)
    (r : WXRTRoute) : List (WXUrlPath × WXRTRoute) :=
  if inner.any (fun e => e.1 == p) then
    inner.map (fun e => if e.1 == p then (p, r) else e)
  else
    inner ++ [(p, r)]

/-- Embedding of `route_map.entry(method).or_default().insert(path, route)`
(src/engine/runtime.rs, `from_modules`). -/
def routeMapInsert (m : WXRouteMap) (method : HttpMethod) (p : WXUrlPath)
    (r : WXRTRoute) : WXRouteMap :=
  if m.any (fun e => e.1 == method) then
    m.map (fun e => if e.1 == method then (e.1, methodMapInsert e.2 p r) else e)
  else
    m ++ [(method, methodMapInsert [] p r)]

/-- Embedding of `WXRouteMap::from_modules` (src/engine/runtime.rs): run
`verify_model_routes`, then insert every flat route under its method and
full path. The Rust `HashMap` iteration order is arbitrary; the embedding
iterates the flat list in its deterministic insertion order, which realises
one admissible iteration order. -/
def WXRouteMap.from_modules (modules : List WXModule) :
    Panics (Except WXRuntimeError WXRouteMap) :=
  match verifyModelRoutes modules with
  | none => none
  | some (.error e) => some (.error e)
  | some (.ok routes) =>
    some (routes.foldlM
      (fun acc e =>
        (compileRoute e.1.1 e.1.1.info.path).map
          (fun rt => routeMapInsert acc e.1.1.method e.1.2 rt))
      [])

/-- Stable insertion of a candidate into a list sorted by descending
segment count: the candidate goes after every earlier entry with at least
as many segments, realising the stable
`sort_by(|(a, _), (b, _)| b.segments().cmp(&a.segments()))` of
`WXRouteMap::resolve`. -/
def insertDescBySeg (x : WXUrlPath × WXRTRoute) :
    List (WXUrlPath × WXRTRoute) → List (WXUrlPath × WXRTRoute)
  | [] => [x]
  | y :: ys =>
    if x.1.segments ≤ y.1.segments then y :: insertDescBySeg x ys
    else x :: y :: ys

/-- The descending stable sort used by `WXRouteMap::resolve`. -/
def sortRoutesDesc (l : List (WXUrlPath × WXRTRoute)) :
    List (WXUrlPath × WXRTRoute) :=
  l.foldl (fun acc x => insertDescBySeg x acc) []

/-- The candidate loop of `WXRouteMap::resolve` (src/engine/runtime.rs):
a perfect match short-circuits, a partial match is retained as the best so
far. -/
def resolveLoop (rnew : String → Option (String → Bool)) (uriPath : String) :
    List (WXUrlPath × WXRTRoute) →
    Option (WXUrlPath × WXRTContext × WXRTRoute) →
    Panics (Option (WXUrlPath × WXRTContext × WXRTRoute))
  | [], best => some best
  | (p, r) :: rest, best =>
    match wxMatches rnew p uriPath with
    | none => none
    | some .NoneR => resolveLoop rnew uriPath rest best
    | some (.Perfect b) => some (some (p, b, r))
    | some (.PartialM b) => resolveLoop rnew uriPath rest (some (p, b, r))

/-- Embedding of `WXRouteMap::resolve` (src/engine/runtime.rs). -/
def WXRouteMap.resolve (rnew : String → Option (String → Bool))
    (m : WXRouteMap) (method : HttpMethod) (uriPath : String) :
    Panics (Option (WXUrlPath × WXRTContext × WXRTRoute)) :=
  match m.find? (fun e => e.1 == method) with
  | none => some none
  | some e => resolveLoop rnew uriPath (sortRoutesDesc e.2) none

section RouteExecution

variable {JS : Type}

/-- Embedding of `WXRTRoute::execute_body` (src/engine/runtime.rs): the `assert!` and
`unwrap` on a missing body panic (`none`); a Ts (statement) body hits
`todo!` and panics; a Tsx (template) body yields its text as a string
value. -/
def WXRTRoute.executeBody (r : WXRTRoute) : Panics (Except WXRuntimeError WXRTValue) :=
  match r.body with
  | none => none
  | some b =>
    match b.body_type with
    | .ts => none
    | .tsx => some (.ok (.str b.body))

/-- Sequential handler execution with output binding: the body of the
`for handler in … { let result = handler.execute(…)?; if let Some(output) …
ctx.bind(output, result) }` loops in `WXRTRoute::execute`. `hexec`
abstracts `WXRTHandlerCall::execute` (stdlib native call or JavaScript
evaluation inside the module engine), threading the engine state `JS`. -/
def execHandlerList
    (hexec : WXRTHandlerCall → WXRTContext → JS → Except WXRuntimeError (WXRTValue × JS)) :
    List WXRTHandlerCall → WXRTContext → JS →
    Except WXRuntimeError (WXRTContext × JS)
  | [], ctx, js => .ok (ctx, js)
  | h :: rest, ctx, js =>
    match hexec h ctx js with
    | .error e => .error e
    | .ok (v, js') =>
      let ctx' := match h.output with
        | some o => ctx.bind o v
        | none => ctx
      execHandlerList hexec rest ctx' js'

/-- Embedding of `WXRTRoute::execute` (src/engine/runtime.rs): the four-branch pipeline
(empty route, body only, handlers only, handlers and body). The final
engine state is discarded, as no claim observes it. -/
def WXRTRoute.execute
    (hexec : WXRTHandlerCall → WXRTContext → JS → Except WXRuntimeError (WXRTValue × JS))
    (now : String) (r : WXRTRoute) (ctx : WXRTContext) (js : JS) :
    Panics (Except WXRuntimeError HttpResponse) :=
  if r.pre_handlers.isEmpty && r.body.isNone && r.post_handlers.isEmpty then
    some (.error ⟨500, "Route is empty"⟩)
  else if r.pre_handlers.isEmpty && r.body.isSome && r.post_handlers.isEmpty then
    match r.executeBody with
    | none => none
    | some (.error e) => some (.error e)
    | some (.ok v) => some (.ok (okHtml now v.to_raw))
  else if r.body.isNone then
    match execHandlerList hexec (r.pre_handlers ++ r.post_handlers).dropLast ctx js with
    | .error e => some (.error e)
    | .ok (ctx1, js1) =>
      match (r.pre_handlers ++ r.post_handlers).getLast? with
      | none => none
      | some h =>
        match hexec h ctx1 js1 with
        | .error e => some (.error e)
        | .ok (v, _) => some (.ok (okHtml now v.to_raw))
  else
    match execHandlerList hexec r.pre_handlers ctx js with
    | .error e => some (.error e)
    | .ok (ctx1, js1) =>
      match r.executeBody with
      | none => none
      | some (.error e) => some (.error e)
      | some (.ok bodyVal) =>
        if r.post_handlers.isEmpty then
          some (.ok (okHtml now bodyVal.to_raw))
        else
          match execHandlerList hexec r.post_handlers.dropLast ctx1 js1 with
          | .error e => some (.error e)
          | .ok (ctx2, js2) =>
            match r.post_handlers.getLast? with
            | none => none
            | some h =>
              match hexec h ctx2 js2 with
              | .error e => some (.error e)
              | .ok (v, _) => some (.ok (okHtml now v.to_raw))

/-- Specification-side sequential run (spec 4.5 steps 2 and 4): execute the
calls in order, binding each declared output, and report the value returned
by the last call (`none` for an empty list). -/
def specRunAll
    (hexec : WXRTHandlerCall → WXRTContext → JS → Except WXRuntimeError (WXRTValue × JS)) :
    List WXRTHandlerCall → WXRTContext → JS →
    Except WXRuntimeError (Option WXRTValue × WXRTContext × JS)
  | [], ctx, js => .ok (none, ctx, js)
  | [h], ctx, js =>
    match hexec h ctx js with
    | .error e => .error e
    | .ok (v, js') =>
      .ok (some v,
           (match h.output with
            | some o => ctx.bind o v
            | none => ctx),
           js')
  | h :: h2 :: t, ctx, js =>
    match hexec h ctx js with
    | .error e => .error e
    | .ok (v, js') =>
      specRunAll hexec (h2 :: t)
        (match h.output with
         | some o => ctx.bind o v
         | none => ctx)
        js'

/-- Specification-side final pipeline value (spec 4.5 step 5): the last
post-handler return, else the body value, else the last pre-handler
return; `none` when the route has no pre-handlers, no body and no
post-handlers. -/
def specPipeline
    (hexec : WXRTHandlerCall → WXRTContext → JS → Except WXRuntimeError (WXRTValue × JS))
    (r : WXRTRoute) (ctx : WXRTContext) (js : JS) :
    Panics (Except WXRuntimeError (Option WXRTValue)) :=
  match specRunAll hexec r.pre_handlers ctx js with
  | .error e => some (.error e)
  | .ok (preVal, ctx1, js1) =>
    match r.body with
    | none =>
      match specRunAll hexec r.post_handlers ctx1 js1 with
      | .error e => some (.error e)
      | .ok (postVal, _, _) => some (.ok (postVal.orElse (fun _ => preVal)))
    | some _ =>
      match r.executeBody with
      | none => none
      | some (.error e) => some (.error e)
      | some (.ok bodyVal) =>
        match specRunAll hexec r.post_handlers ctx1 js1 with
        | .error e => some (.error e)
        | .ok (postVal, _, _) => some (.ok (some (postVal.getD bodyVal)))

/-- Specification-side response formation (spec 4.5 step 5): serve the raw
rendering of the final pipeline value, or the 500 route-empty error when
there is none. -/
def specPipelineExecute
    (hexec : WXRTHandlerCall → WXRTContext → JS → Except WXRuntimeError (WXRTValue × JS))
    (now : String) (r : WXRTRoute) (ctx : WXRTContext) (js : JS) :
    Panics (Except WXRuntimeError HttpResponse) :=
  match specPipeline hexec r ctx js with
  | none => none
  | some (.error e) => some (.error e)
  | some (.ok none) => some (.error ⟨500, "Route is empty"⟩)
  | some (.ok (some v)) => some (.ok (okHtml now v.to_raw))

/-- The `runtimes` field of `WXRuntime`
(`HashMap<WXModulePath, JsRuntime>`): lookup. -/
def lookupRuntime (rts : List (WXModulePath × JS)) (p : WXModulePath) : Option JS :=
  (rts.find? (fun e => e.1 == p)).map (fun e => e.2)

/-- Embedding of `HashMap::insert` on the runtimes map (key-replacing). -/
def runtimesInsert (rts : List (WXModulePath × JS)) (p : WXModulePath) (js : JS) :
    List (WXModulePath × JS) :=
  if rts.any (fun e => e.1 == p) then
    rts.map (fun e => if e.1 == p then (p, js) else e)
  else
    rts ++ [(p, js)]

/-- Embedding of `HashMap::remove` on the runtimes map. -/
def runtimesRemove (rts : List (WXModulePath × JS)) (p : WXModulePath) :
    List (WXModulePath × JS) :=
  rts.filter (fun e => !(e.1 == p))

/-- The owned state of `WXRuntime` (src/engine/runtime.rs): mode, source
modules in insertion order, compiled route map, and one script engine per
module path. The mailbox receiver is replaced by explicit message
processing and the immutable project-root info is absorbed into the handler
oracle. -/
structure WXRuntime (JS : Type) where
  mode : WXMode
  source_modules : List WXModule
  routes : WXRouteMap
  runtimes : List (WXModulePath × JS)

/-- Embedding of `WXRuntime::load_module` (src/engine/runtime.rs): create a fresh engine
for the module path, run the global scope in it
(`initialize_module_runtime`; failures are logged and ignored), and push
the module. `jsNew` models `JsRuntime::new(Default::default())` and
`execGlobal` the global-scope evaluation. -/
def loadModule (jsNew : JS) (execGlobal : String → JS → JS)
    (s : WXRuntime JS) (m : WXModule) : WXRuntime JS :=
  let rts := runtimesInsert s.runtimes m.path jsNew
  let rts := rts.map (fun e =>
    if e.1 == m.path then (e.1, execGlobal m.scope.global_ts e.2) else e)
  { s with runtimes := rts, source_modules := s.source_modules ++ [m] }

/-- Embedding of `WXRuntime::remove_module` (src/engine/runtime.rs): drop the engine and
retain only modules with a different path. -/
def removeModule (s : WXRuntime JS) (p : WXModulePath) : WXRuntime JS :=
  { s with
    runtimes := runtimesRemove s.runtimes p,
    source_modules := s.source_modules.filter (fun m => !(m.path == p)) }

/-- Embedding of `WXRuntime::recompile` (src/engine/runtime.rs): on success the new map
replaces the old; on an analyzer error the message is logged
(`error_code`) and the whole state, route map included, is left as it
was. -/
def recompileS (s : WXRuntime JS) : Panics (WXRuntime JS) :=
  match WXRouteMap.from_modules s.source_modules with
  | none => none
  | some (.ok routes) => some { s with routes := routes }
  | some (.error _) => some s

/-- The module-set mutation messages of `WXRuntimeMessage`
(src/engine/runtime.rs). `ExecuteRoute` is served by `executeRoute` below
and never alters the module set or the runtimes key set. -/
inductive WXRuntimeMessage where
  | newM (m : WXModule)
  | swap (p : WXModulePath) (m : WXModule)
  | removeM (p : WXModulePath)

/-- The state mutation performed by the matching arm of `WXRuntime::run`
before its `recompile` call: `New` loads the module, `Swap` removes the old
path (engine included) and pushes the new module without creating an
engine, `Remove` removes the module. -/
def moduleOp (jsNew : JS) (execGlobal : String → JS → JS)
    (s : WXRuntime JS) : WXRuntimeMessage → WXRuntime JS
  | .newM m => loadModule jsNew execGlobal s m
  | .swap p m =>
    let s' := removeModule s p
    { s' with source_modules := s'.source_modules ++ [m] }
  | .removeM p => removeModule s p

/-- One full message step of `WXRuntime::run`: the mutation followed by
`recompile`. -/
def stepMsg (jsNew : JS) (execGlobal : String → JS → JS)
    (s : WXRuntime JS) (msg : WXRuntimeMessage) : Panics (WXRuntime JS) :=
  recompileS (moduleOp jsNew execGlobal s msg)

/-- Processing of a message sequence by the runtime actor loop. -/
def stepList (jsNew : JS) (execGlobal : String → JS → JS)
    (s : WXRuntime JS) : List WXRuntimeMessage → Panics (WXRuntime JS)
  | [] => some s
  | msg :: rest =>
    match stepMsg jsNew execGlobal s msg with
    | none => none
    | some s' => stepList jsNew execGlobal s' rest

/-- Embedding of `WXRuntime::execute_route` (src/engine/runtime.rs): resolve the route;
on no match answer the default 404; on a match fetch the module engine with
`self.runtimes.get_mut(&route.module_path).unwrap()` — a missing engine
panics — then run the route, converting a pipeline error into the default
500 page. The body-to-bytes conversion (`map(Full::from)`) is identity on
the observed fields. -/
def executeRoute
    (hexec : WXRTHandlerCall → WXRTContext → JS → Except WXRuntimeError (WXRTValue × JS))
    (now version : String) (rnew : String → Option (String → Bool))
    (s : WXRuntime JS) (method : HttpMethod) (uriPath : String) :
    Panics (Except WXRuntimeError HttpResponse) :=
  match WXRouteMap.resolve rnew s.routes method uriPath with
  | none => none
  | some none => some (.ok (notFoundDefaultWebx s.mode version now))
  | some (some (_p, ctx, route)) =>
    match lookupRuntime s.runtimes route.module_path with
    | none => none
    | some js =>
      match WXRTRoute.execute hexec now route ctx js with
      | none => none
      | some (.ok resp) => some (.ok resp)
      | some (.error err) =>
        some (.ok (internalServerErrorDefaultWebx s.mode version now err.message))

end RouteExecution

/-- The wildcard branch of `parse_url_path` (src/file/parser.rs): a `*` in
a url path is stored as a Regex segment named `g<counter>` whose pattern is
the literal string `*`. -/
def wildcardSegment (counter : Nat) : WXUrlPathSegment :=
  .regex ("g" ++ toString counter) "*"

/-- Modelled from the spec: `regex::Regex::new` of the external `regex`
crate (a dependency, not code under src/), restricted to the patterns that
`parse_url_path` can store in a Regex segment — exactly the string `*`. The
crate documents `*` as a repetition operator, and a pattern consisting of a
repetition operator with no preceding expression is rejected
("repetition operator missing expression"), so compilation of `*` returns
an error. Patterns other than `*` never reach this function from
parser-generated paths; their matcher is left trivial. -/
def regexCrateNew (pat : String) : Option (String → Bool) :=
  if pat == "*" then none
  else some (fun _ => false)

/-- Prefix test on character lists (for the substring check below). -/
def charsBeginWith : List Char → List Char → Bool
  | [], _ => true
  | _ :: _, [] => false
  | a :: xs, b :: ys => a == b && charsBeginWith xs ys

/-- Substring occurrence test on character lists. -/
def charsContain (needle : List Char) : List Char → Bool
  | [] => needle.isEmpty
  | c :: rest => charsBeginWith needle (c :: rest) || charsContain needle rest

/-- Embedding of `hay` contains `needle` as a contiguous substring. -/
def strContains (hay needle : String) : Bool :=
  charsContain needle.toList hay.toList

/-- Claim-side bulk segment match: every zipped (pattern segment, request
token) pair matches under `segMatchSpec`. -/
def segsAll (rm : String → String → Bool) (p : WXUrlPath) (toks : List String) : Bool :=
  (p.zip toks).all (fun z => segMatchSpec rm z.1 z.2)

/-! Concrete data for the witnesses and counterexamples below. -/

/-- A scope with a path prefix, routes and nested scopes and all other
fields empty. -/
def mkScope (p : WXUrlPath) (routes : List WXRoute) (scopes : List WXScope) : WXScope :=
  .mk p [] "" [] [] routes scopes

/-- An example GET route with a template body and no handlers. -/
def exRouteGET (modPath : WXModulePath) (line : Nat) (p : WXUrlPath) : WXRoute :=
  ⟨⟨modPath, line⟩, .GET, p, none, [], some ⟨.tsx, "x"⟩, []⟩

/-- Example module `m1.webx`: `location /a { get /b (…) }`. -/
def exModScoped : WXModule :=
  ⟨"m1.webx",
   mkScope [] []
     [mkScope [.literal ("a")] [exRouteGET ("m1.webx") 2 [.literal ("b")]] []]⟩

/-- Example module `m2.webx`: `get /a/b (…)` at the root. -/
def exModRoot : WXModule :=
  ⟨"m2.webx", mkScope [] [exRouteGET ("m2.webx") 1 [.literal ("a"), .literal ("b")]] []⟩

/-- Example module `d1.webx`: `get /x (…)`. -/
def exDupA : WXModule :=
  ⟨"d1.webx", mkScope [] [exRouteGET ("d1.webx") 1 [.literal ("x")]] []⟩

/-- Example module `d2.webx`: `get /x (…)` (same route, other module). -/
def exDupB : WXModule :=
  ⟨"d2.webx", mkScope [] [exRouteGET ("d2.webx") 1 [.literal ("x")]] []⟩

/-- Example POST route `post /x (…)` without a request-body shape. -/
def exPostRoute : WXRoute :=
  ⟨⟨"p.webx", 1⟩, .POST, [.literal ("x")], none, [], some ⟨.tsx, "x"⟩, []⟩

/-- Example module `p.webx` containing only `exPostRoute`. -/
def exModPost : WXModule :=
  ⟨"p.webx", mkScope [] [exPostRoute] []⟩

/-- Example module `a.webx` with no routes. -/
def exModEmpty : WXModule := ⟨"a.webx", mkScope [] [] []⟩

/-- Trivial global-scope evaluator over the unit engine. -/
def unitExecGlobal : String → Unit → Unit := fun _ _ => ()

/-- The initial runtime state built by `WXRuntime::new`: no modules, empty
route map, no engines. -/
def exInitState : WXRuntime Unit := ⟨.dev 1, [], [], []⟩

/-- A compiled route of module `m.webx` with a template body `hi`. -/
def exRtRoute : WXRTRoute := ⟨"m.webx", some ⟨.tsx, "hi"⟩, [], []⟩

/-- A runtime state whose route map resolves `GET /x` to `exRtRoute` but
whose engine map is empty. -/
def exStateNoHost : WXRuntime Unit :=
  ⟨.prod, [], [(.GET, [([.literal ("x")], exRtRoute)])], []⟩

/-- A handler-call oracle over the unit engine that always returns the
(non-string) value `null`. -/
def hexecNull : WXRTHandlerCall → WXRTContext → Unit →
    Except WXRuntimeError (WXRTValue × Unit) :=
  fun _ _ js => .ok (.null, js)

/-- An argument-less handler call named `f`. -/
def exCallF : WXRTHandlerCall := ⟨"f", [], none⟩

/-- A compiled route with a single pre-handler, no body, no post-handlers. -/
def exRoutePreOnly : WXRTRoute := ⟨"m.webx", none, [exCallF], []⟩

/-- A regex-match oracle that rejects every token. -/
def rmFalse : String → String → Bool := fun _ _ => false

/-- A regex-match oracle that accepts every token. -/
def rmTrue : String → String → Bool := fun _ _ => true

/-- The pattern `/a/b` (two literal segments). -/
def patAB : WXUrlPath := [.literal ("a"), .literal ("b")]

/-! ## Theorems -/

/-- Claim C1 (code evaluation at the failing input): starting from the
empty runtime state, processing `New` of module `a.webx` and then `Swap` of
the same path leaves the swapped module in the live source-module set while
the script-host map has no entry at all — the `Swap` branch removes the
prior engine through `remove_module` and pushes the new module without
creating one, so the claimed iff invariant between the live set and the
script-host map fails, and `Swap` does not behave like Remove-then-`New`. -/
theorem wx_c1_swap_drops_script_host :
    (stepList () unitExecGlobal exInitState
        [.newM exModEmpty, .swap ("a.webx") exModEmpty]).map
      (fun s => (s.source_modules.map (fun m => m.path),
                 s.runtimes.map (fun e => e.1)))
      = some (["a.webx"], []) := rfl

/-- Claim C2 (amended): when the route map resolves the request but the
script-host map has no entry for the module path of the resolved route,
`execute_route` panics at
`self.runtimes.get_mut(&route.module_path).unwrap()`; it does not return a
500 "exec-route" error response (none exists in the code) or any other
value. -/
theorem wx_c2_missing_host_panics {JS : Type}
    (hexec : WXRTHandlerCall → WXRTContext → JS → Except WXRuntimeError (WXRTValue × JS))
    (now version : String) (rnew : String → Option (String → Bool))
    (s : WXRuntime JS) (method : HttpMethod) (uriPath : String)
    (p : WXUrlPath) (b : WXRTContext) (route : WXRTRoute)
    (hres : WXRouteMap.resolve rnew s.routes method uriPath = some (some (p, b, route)))
    (hmiss : lookupRuntime s.runtimes route.module_path = none) :
    executeRoute hexec now version rnew s method uriPath = none := by
  unfold executeRoute
  simp only [hres, hmiss]

/-- Witness for `wx_c2_missing_host_panics` at a concrete state. -/
theorem wx_c2_missing_host_panics_witness :
    executeRoute hexecNull ("D") ("0.1.0") regexCrateNew exStateNoHost .GET ("/x") = none :=
  wx_c2_missing_host_panics hexecNull ("D") ("0.1.0") regexCrateNew exStateNoHost .GET ("/x")
    [.literal ("x")] WXRTContext.new exRtRoute rfl rfl

/-- Claim C2 (counterexample to the claim as stated): a concrete state
whose route map resolves `GET /x` while the script-host map is empty makes
`execute_route` panic (`none`), not return a 500 error response. -/
theorem wx_c2_counterexample :
    executeRoute hexecNull ("D") ("0.1.0") regexCrateNew exStateNoHost .GET ("/x") = none
    ∧ WXRouteMap.resolve regexCrateNew exStateNoHost.routes .GET ("/x")
        = some (some ([.literal ("x")], WXRTContext.new, exRtRoute)) :=
  ⟨rfl, rfl⟩

/-- Claim C4 (counterexample to the claim as stated): module `m1.webx`
declares `get /b` inside `location /a` and module `m2.webx` declares
`get /a/b` at the root. Both flatten to the same `(GET, /a/b)` combination
from two different declarations (two map entries, each with a single
source location), yet duplicate-route analysis succeeds, because the
`FlatRoutes` key also compares the declared (unprefixed) path of the route
through the hand-written `PartialEq for WXRoute`. -/
theorem wx_c4_counterexample :
    analyzeDuplicateRoutes [exModScoped, exModRoot]
        = .ok (extractFlatRoutes [exModScoped, exModRoot])
    ∧ (extractFlatRoutes [exModScoped, exModRoot]).map (fun e => (e.1.1.method, e.1.2))
        = [(HttpMethod.GET, [.literal ("a"), .literal ("b")]),
           (HttpMethod.GET, [.literal ("a"), .literal ("b")])]
    ∧ (extractFlatRoutes [exModScoped, exModRoot]).map (fun e => e.2.length) = [1, 1] :=
  ⟨rfl, rfl, rfl⟩

/-- Claim C5 (code evaluation at the failing input): a POST route without a
request-body shape violates the method/body rule (`routeInvalid`), but
`analyze_invalid_routes` panics (`none`) instead of returning the code-7
error: building the diagnostic unwraps `route.body_format`, which is `None`
for exactly this class of invalid routes. -/
theorem wx_c5_invalid_post_panics :
    analyzeInvalidRoutes [exModPost] = none ∧ routeInvalid exPostRoute = true :=
  ⟨rfl, rfl⟩

/-- Claim C9 (amended): a request that resolves to no route is answered
with the default 404 page, whose body is fixed by the mode and crate
version alone and does not depend on the request method or url. -/
theorem wx_c9_not_found_default {JS : Type}
    (hexec : WXRTHandlerCall → WXRTContext → JS → Except WXRuntimeError (WXRTValue × JS))
    (now version : String) (rnew : String → Option (String → Bool))
    (s : WXRuntime JS) (method : HttpMethod) (uriPath : String)
    (hnone : WXRouteMap.resolve rnew s.routes method uriPath = some none) :
    executeRoute hexec now version rnew s method uriPath
      = some (.ok (notFoundDefaultWebx s.mode version now))
    ∧ (notFoundDefaultWebx s.mode version now).status = 404 := by
  constructor
  · unfold executeRoute
    rw [hnone]
  · rfl

/-- Witness for `wx_c9_not_found_default` on the empty route map and the
request `GET /missing`. -/
theorem wx_c9_not_found_default_witness :
    executeRoute hexecNull ("D") ("0.1.0") regexCrateNew exInitState .GET ("/missing")
      = some (.ok (notFoundDefaultWebx exInitState.mode ("0.1.0") ("D")))
    ∧ (notFoundDefaultWebx exInitState.mode ("0.1.0") ("D")).status = 404 :=
  wx_c9_not_found_default hexecNull ("D") ("0.1.0") regexCrateNew exInitState .GET
    ("/missing") rfl

/-- Claim C9 (counterexample to the claim as stated): the default 404 body
(both production and development variants) does not contain the substring
`GET /missing` — it names neither the attempted method nor the url. -/
theorem wx_c9_counterexample :
    (notFoundDefaultWebx .prod ("0.1.0") ("D")).status = 404
    ∧ strContains notFoundBodyProd ("GET /missing") = false
    ∧ strContains (notFoundBodyDev ("0.1.0")) ("GET /missing") = false :=
  ⟨rfl, rfl, rfl⟩

/-- Claim C8: the message-handling mutation itself never touches the route
map, and the subsequent `recompile` keeps the whole state (old route map
included) whenever compiling the mutated module set returns an analyzer
error, while a successful compilation replaces exactly the route map. -/
theorem wx_c8_recompile_keeps_old_map {JS : Type} (jsNew : JS)
    (execGlobal : String → JS → JS) (s : WXRuntime JS) (msg : WXRuntimeMessage) :
    (moduleOp jsNew execGlobal s msg).routes = s.routes
    ∧ (∀ e, WXRouteMap.from_modules (moduleOp jsNew execGlobal s msg).source_modules
          = some (.error e) →
        stepMsg jsNew execGlobal s msg = some (moduleOp jsNew execGlobal s msg))
    ∧ (∀ rm, WXRouteMap.from_modules (moduleOp jsNew execGlobal s msg).source_modules
          = some (.ok rm) →
        stepMsg jsNew execGlobal s msg
          = some { moduleOp jsNew execGlobal s msg with routes := rm }) := by
  refine ⟨?_, ?_, ?_⟩
  · cases msg <;> rfl
  · intro e he
    unfold stepMsg recompileS
    rw [he]
  · intro rm hrm
    unfold stepMsg recompileS
    rw [hrm]

/-- Witness for `wx_c8_recompile_keeps_old_map`: loading the route-less
module `a.webx` into the empty state succeeds and installs the (empty)
freshly compiled route map. -/
theorem wx_c8_recompile_keeps_old_map_witness :
    stepMsg () unitExecGlobal exInitState (.newM exModEmpty)
      = some { moduleOp () unitExecGlobal exInitState (.newM exModEmpty) with routes := [] } :=
  (wx_c8_recompile_keeps_old_map () unitExecGlobal exInitState (.newM exModEmpty)).2.2 [] rfl

/-- Helper: every successful result of `WXRTRoute::execute` is built by
`ok_html` from the raw rendering of some runtime value. -/
theorem execute_ok_is_okHtml {JS : Type}
    (hexec : WXRTHandlerCall → WXRTContext → JS → Except WXRuntimeError (WXRTValue × JS))
    (now : String) (r : WXRTRoute) (ctx : WXRTContext) (js : JS) (resp : HttpResponse)
    (h : WXRTRoute.execute hexec now r ctx js = some (.ok resp)) :
    ∃ v : WXRTValue, resp = okHtml now v.to_raw := by
  unfold WXRTRoute.execute at h
  repeat' split at h
  all_goals simp only [Option.some.injEq, Except.ok.injEq, reduceCtorEq] at h
  all_goals exact ⟨_, h.symm⟩

/-- Claim C7 (amended): every response of a successfully executed route
pipeline carries Content-Type `text/html; charset=utf-8`, whatever the
shape of the final value: `WXRTRoute::execute` forms every success through
`ok_html` and never produces a JSON response. -/
theorem wx_c7_html_content_type {JS : Type}
    (hexec : WXRTHandlerCall → WXRTContext → JS → Except WXRuntimeError (WXRTValue × JS))
    (now : String) (r : WXRTRoute) (ctx : WXRTContext) (js : JS) (resp : HttpResponse)
    (h : WXRTRoute.execute hexec now r ctx js = some (.ok resp)) :
    resp.header ("Content-Type") = some ("text/html; charset=utf-8") := by
  obtain ⟨v, rfl⟩ := execute_ok_is_okHtml hexec now r ctx js resp h
  rfl

/-- Witness for `wx_c7_html_content_type` at a concrete body-only route. -/
theorem wx_c7_html_content_type_witness :
    (okHtml ("D") ("hi")).header ("Content-Type") = some ("text/html; charset=utf-8") :=
  wx_c7_html_content_type hexecNull ("D") exRtRoute WXRTContext.new ()
    (okHtml ("D") ("hi")) rfl

/-- Claim C7 (counterexample to the claim as stated): a route whose single
pre-handler returns the non-string value `null` is answered with the
`ok_html` response for the raw text `null` — Content-Type
`text/html; charset=utf-8`, not `application/json`. -/
theorem wx_c7_counterexample :
    WXRTRoute.execute hexecNull ("D") exRoutePreOnly WXRTContext.new ()
        = some (.ok (okHtml ("D") ("null")))
    ∧ specPipeline hexecNull exRoutePreOnly WXRTContext.new ()
        = some (.ok (some WXRTValue.null))
    ∧ (okHtml ("D") ("null")).header ("Content-Type")
        = some ("text/html; charset=utf-8")
    ∧ ¬ (okHtml ("D") ("null")).header ("Content-Type") = some ("application/json") :=
  ⟨rfl, rfl, rfl, by decide⟩

/-- Helper: `execHandlerList` is the (context, engine) projection of
`specRunAll`; both run the same calls and bind the same outputs. -/
theorem specRunAll_exec {JS : Type}
    (hexec : WXRTHandlerCall → WXRTContext → JS → Except WXRuntimeError (WXRTValue × JS))
    (hs : List WXRTHandlerCall) : ∀ (ctx : WXRTContext) (js : JS),
    execHandlerList hexec hs ctx js
      = (match specRunAll hexec hs ctx js with
         | .error e => .error e
         | .ok (_, c, j) => .ok (c, j)) := by
  induction hs with
  | nil => intro ctx js; rfl
  | cons h rest ih =>
    intro ctx js
    cases rest with
    | nil =>
      cases hh : hexec h ctx js with
      | error e => simp only [execHandlerList, specRunAll, hh]
      | ok vjs =>
        obtain ⟨v, js'⟩ := vjs
        simp only [execHandlerList, specRunAll, hh]
    | cons r2 rs =>
      cases hh : hexec h ctx js with
      | error e => simp only [execHandlerList, specRunAll, hh]
      | ok vjs =>
        obtain ⟨v, js'⟩ := vjs
        have key := ih (match h.output with
          | some o => ctx.bind o v
          | none => ctx) js'
        simp only [execHandlerList, specRunAll, hh]
        exact key

/-- Helper: a non-empty call list always reports a last value. -/
theorem specRunAll_ne_nil_some {JS : Type}
    (hexec : WXRTHandlerCall → WXRTContext → JS → Except WXRuntimeError (WXRTValue × JS))
    (hs : List WXRTHandlerCall) :
    ∀ (ctx : WXRTContext) (js : JS) (w : Option WXRTValue) (c : WXRTContext) (j : JS),
    hs ≠ [] → specRunAll hexec hs ctx js = .ok (w, c, j) → ∃ v, w = some v := by
  induction hs with
  | nil => intro ctx js w c j hne; exact absurd rfl hne
  | cons h rest ih =>
    intro ctx js w c j _ hspec
    cases rest with
    | nil =>
      cases hh : hexec h ctx js with
      | error e => simp [specRunAll, hh] at hspec
      | ok vjs =>
        obtain ⟨v, js'⟩ := vjs
        simp only [specRunAll, hh, Except.ok.injEq, Prod.mk.injEq] at hspec
        exact ⟨v, hspec.1.symm⟩
    | cons r2 rs =>
      cases hh : hexec h ctx js with
      | error e => simp [specRunAll, hh] at hspec
      | ok vjs =>
        obtain ⟨v, js'⟩ := vjs
        simp only [specRunAll, hh] at hspec
        exact ih _ _ _ _ _ (by simp) hspec

/-- Helper: running a concatenated call list equals running the two halves
in sequence, the reported last value being that of the second half when it
has one and that of the first half otherwise. -/
theorem specRunAll_append {JS : Type}
    (hexec : WXRTHandlerCall → WXRTContext → JS → Except WXRuntimeError (WXRTValue × JS))
    (xs : List WXRTHandlerCall) : ∀ (ys : List WXRTHandlerCall) (ctx : WXRTContext) (js : JS),
    specRunAll hexec (xs ++ ys) ctx js
      = (match specRunAll hexec xs ctx js with
         | .error e => .error e
         | .ok (vx, c, j) =>
           match specRunAll hexec ys c j with
           | .error e => .error e
           | .ok (vy, c', j') => .ok (vy.orElse (fun _ => vx), c', j')) := by
  induction xs with
  | nil =>
    intro ys ctx js
    cases hy : specRunAll hexec ys ctx js with
    | error e => simp [specRunAll, hy]
    | ok t =>
      obtain ⟨vy, c', j'⟩ := t
      cases vy <;> simp [specRunAll, hy, Option.orElse]
  | cons x xt ih =>
    intro ys ctx js
    cases xt with
    | nil =>
      cases hh : hexec x ctx js with
      | error e =>
        cases ys with
        | nil => simp [specRunAll, hh]
        | cons y yt => simp [specRunAll, hh]
      | ok vjs =>
        obtain ⟨v, js'⟩ := vjs
        cases ys with
        | nil => simp [specRunAll, hh, Option.orElse]
        | cons y yt =>
          cases hy : specRunAll hexec (y :: yt)
              (match x.output with
               | some o => ctx.bind o v
               | none => ctx) js' with
          | error e => simp [specRunAll, hh, hy]
          | ok t =>
            obtain ⟨vy, c', j'⟩ := t
            obtain ⟨v0, rfl⟩ :=
              specRunAll_ne_nil_some hexec (y :: yt) _ _ _ _ _ (by simp) hy
            simp [specRunAll, hh, hy, Option.orElse]
    | cons t1 ts =>
      cases hh : hexec x ctx js with
      | error e => simp [specRunAll, hh]
      | ok vjs =>
        obtain ⟨v, js'⟩ := vjs
        have key := ih ys (match x.output with
          | some o => ctx.bind o v
          | none => ctx) js'
        simp only [List.cons_append] at key ⊢
        simp only [specRunAll, hh]
        exact key

/-- Helper: the run-all-but-last-then-last execution pattern of
`WXRTRoute::execute` produces exactly the `ok_html` of the last value
reported by the specification-side `specRunAll`. -/
theorem lastHandlerResp {JS : Type}
    (hexec : WXRTHandlerCall → WXRTContext → JS → Except WXRuntimeError (WXRTValue × JS))
    (now : String) (hs : List WXRTHandlerCall) : ∀ (ctx : WXRTContext) (js : JS),
    ((match execHandlerList hexec hs.dropLast ctx js with
      | .error e => some (.error e)
      | .ok (c, j) =>
        match hs.getLast? with
        | none => none
        | some h =>
          match hexec h c j with
          | .error e => some (.error e)
          | .ok (v, _) => some (.ok (okHtml now v.to_raw)))
      : Panics (Except WXRuntimeError HttpResponse))
    = ((match specRunAll hexec hs ctx js with
        | .error e => some (.error e)
        | .ok (none, _, _) => none
        | .ok (some v, _, _) => some (.ok (okHtml now v.to_raw)))
      : Panics (Except WXRuntimeError HttpResponse)) := by
  induction hs with
  | nil => intro ctx js; rfl
  | cons h rest ih =>
    intro ctx js
    cases rest with
    | nil =>
      cases hh : hexec h ctx js with
      | error e =>
        simp only [List.dropLast_single, List.getLast?_singleton,
          execHandlerList, specRunAll, hh]
      | ok vjs =>
        obtain ⟨v, js'⟩ := vjs
        simp only [List.dropLast_single, List.getLast?_singleton,
          execHandlerList, specRunAll, hh]
    | cons r2 rs =>
      cases hh : hexec h ctx js with
      | error e =>
        simp only [List.dropLast_cons₂, List.getLast?_cons_cons,
          execHandlerList, specRunAll, hh]
      | ok vjs =>
        obtain ⟨v, js'⟩ := vjs
        have key := ih (match h.output with
          | some o => ctx.bind o v
          | none => ctx) js'
        simp only [List.dropLast_cons₂, List.getLast?_cons_cons,
          execHandlerList, specRunAll, hh]
        exact key

/-- Claim C6: `WXRTRoute::execute` agrees exactly with the specification
pipeline `specPipelineExecute`: the response is the `ok_html` rendering of
the last value produced — the last post-handler return if any post-handlers
exist, else the body value if a body exists, else the last pre-handler
return — and a route with no pre-handlers, no body and no post-handlers
yields the 500 "Route is empty" error instead of a response. -/
theorem wx_c6_pipeline_last_value {JS : Type}
    (hexec : WXRTHandlerCall → WXRTContext → JS → Except WXRuntimeError (WXRTValue × JS))
    (now : String) (r : WXRTRoute) (ctx : WXRTContext) (js : JS) :
    WXRTRoute.execute hexec now r ctx js = specPipelineExecute hexec now r ctx js := by
  obtain ⟨mp, body, pre, post⟩ := r
  cases body with
  | none =>
    cases pre with
    | nil =>
      cases post with
      | nil => rfl
      | cons p1 ps =>
        refine (lastHandlerResp hexec now (p1 :: ps) ctx js).trans ?_
        simp only [specPipelineExecute, specPipeline, specRunAll]
        cases hpost : specRunAll hexec (p1 :: ps) ctx js with
        | error e => rfl
        | ok t =>
          obtain ⟨vy, c2, j2⟩ := t
          obtain ⟨v0, rfl⟩ :=
            specRunAll_ne_nil_some hexec (p1 :: ps) _ _ _ _ _ (by simp) hpost
          rfl
    | cons q1 qs =>
      refine (lastHandlerResp hexec now ((q1 :: qs) ++ post) ctx js).trans ?_
      rw [specRunAll_append hexec (q1 :: qs) post ctx js]
      simp only [specPipelineExecute, specPipeline]
      cases hpre : specRunAll hexec (q1 :: qs) ctx js with
      | error e => rfl
      | ok t =>
        obtain ⟨vx, c1, j1⟩ := t
        obtain ⟨vx0, rfl⟩ :=
          specRunAll_ne_nil_some hexec (q1 :: qs) _ _ _ _ _ (by simp) hpre
        dsimp only
        cases hpost : specRunAll hexec post c1 j1 with
        | error e => rfl
        | ok t2 =>
          obtain ⟨vy, c2, j2⟩ := t2
          cases vy <;> rfl
  | some b =>
    obtain ⟨bt, btxt⟩ := b
    cases pre with
    | nil =>
      cases post with
      | nil => cases bt <;> rfl
      | cons p1 ps =>
        cases bt with
        | ts => rfl
        | tsx =>
          refine (lastHandlerResp hexec now (p1 :: ps) ctx js).trans ?_
          simp only [specPipelineExecute, specPipeline, specRunAll]
          cases hpost : specRunAll hexec (p1 :: ps) ctx js with
          | error e => rfl
          | ok t =>
            obtain ⟨vy, c2, j2⟩ := t
            obtain ⟨v0, rfl⟩ :=
              specRunAll_ne_nil_some hexec (p1 :: ps) _ _ _ _ _ (by simp) hpost
            rfl
    | cons q1 qs =>
      have hex := specRunAll_exec hexec (q1 :: qs) ctx js
      cases hpre : specRunAll hexec (q1 :: qs) ctx js with
      | error e =>
        rw [hpre] at hex
        show (match execHandlerList hexec (q1 :: qs) ctx js with
              | .error e => some (.error e)
              | .ok (ctx1, js1) =>
                match WXRTRoute.executeBody ⟨mp, some ⟨bt, btxt⟩, q1 :: qs, post⟩ with
                | none => none
                | some (.error e) => some (.error e)
                | some (.ok bodyVal) =>
                  if post.isEmpty then some (.ok (okHtml now bodyVal.to_raw))
                  else
                    match execHandlerList hexec post.dropLast ctx1 js1 with
                    | .error e => some (.error e)
                    | .ok (ctx2, js2) =>
                      match post.getLast? with
                      | none => none
                      | some h =>
                        match hexec h ctx2 js2 with
                        | .error e => some (.error e)
                        | .ok (v, _) => some (.ok (okHtml now v.to_raw)))
            = specPipelineExecute hexec now ⟨mp, some ⟨bt, btxt⟩, q1 :: qs, post⟩ ctx js
        rw [hex]
        simp only [specPipelineExecute, specPipeline, hpre]
      | ok t =>
        obtain ⟨vx, c1, j1⟩ := t
        rw [hpre] at hex
        show (match execHandlerList hexec (q1 :: qs) ctx js with
              | .error e => some (.error e)
              | .ok (ctx1, js1) =>
                match WXRTRoute.executeBody ⟨mp, some ⟨bt, btxt⟩, q1 :: qs, post⟩ with
                | none => none
                | some (.error e) => some (.error e)
                | some (.ok bodyVal) =>
                  if post.isEmpty then some (.ok (okHtml now bodyVal.to_raw))
                  else
                    match execHandlerList hexec post.dropLast ctx1 js1 with
                    | .error e => some (.error e)
                    | .ok (ctx2, js2) =>
                      match post.getLast? with
                      | none => none
                      | some h =>
                        match hexec h ctx2 js2 with
                        | .error e => some (.error e)
                        | .ok (v, _) => some (.ok (okHtml now v.to_raw)))
            = specPipelineExecute hexec now ⟨mp, some ⟨bt, btxt⟩, q1 :: qs, post⟩ ctx js
        rw [hex]
        cases bt with
        | ts => simp only [specPipelineExecute, specPipeline, hpre, WXRTRoute.executeBody]
        | tsx =>
          cases post with
          | nil =>
            simp only [specPipelineExecute, specPipeline, hpre,
              WXRTRoute.executeBody, specRunAll, List.isEmpty_nil, if_true]
            rfl
          | cons p1 ps =>
            have HL := lastHandlerResp hexec now (p1 :: ps) c1 j1
            simp only [specPipelineExecute, specPipeline, hpre, WXRTRoute.executeBody,
              List.isEmpty_cons, if_false, Bool.false_eq_true]
            cases hpost : specRunAll hexec (p1 :: ps) c1 j1 with
            | error e =>
              rw [hpost] at HL
              exact HL.trans rfl
            | ok t2 =>
              obtain ⟨vy, c2, j2⟩ := t2
              obtain ⟨v0, rfl⟩ :=
                specRunAll_ne_nil_some hexec (p1 :: ps) _ _ _ _ _ (by simp) hpost
              rw [hpost] at HL
              exact HL.trans rfl

/-- Helper: under a total regex oracle a single segment match never panics
and its Boolean agrees with the claim-side `segMatchSpec`. -/
theorem matchSegment_total (rm : String → String → Bool) (b : WXRTContext)
    (seg : WXUrlPathSegment) (part : String) :
    ∃ b', matchSegment (rnewOf rm) b seg part = some (segMatchSpec rm seg part, b') := by
  cases seg with
  | literal l => exact ⟨b, rfl⟩
  | parameter id => exact ⟨_, rfl⟩
  | regex rname rpat =>
    cases hr : rm rpat part with
    | true =>
      refine ⟨b.bind rname (.str part), ?_⟩
      simp [matchSegment, rnewOf, segMatchSpec, hr]
    | false =>
      refine ⟨b, ?_⟩
      simp [matchSegment, rnewOf, segMatchSpec, hr]

/-- Helper: the short-circuiting `all` over zipped (segment, token) pairs
never panics under a total oracle and computes the claim-side
conjunction. -/
theorem allMatch_total (rm : String → String → Bool)
    (pairs : List (WXUrlPathSegment × String)) :
    ∀ b : WXRTContext, ∃ b',
    allMatch (rnewOf rm) pairs b
      = some (pairs.all (fun z => segMatchSpec rm z.1 z.2), b') := by
  induction pairs with
  | nil => intro b; exact ⟨b, rfl⟩
  | cons z rest ih =>
    intro b
    obtain ⟨seg, part⟩ := z
    obtain ⟨b1, h1⟩ := matchSegment_total rm b seg part
    cases hs : segMatchSpec rm seg part with
    | false =>
      refine ⟨b1, ?_⟩
      rw [hs] at h1
      simp [allMatch, h1, hs]
    | true =>
      obtain ⟨b2, h2⟩ := ih b1
      refine ⟨b2, ?_⟩
      rw [hs] at h1
      simp [allMatch, h1, h2, hs]

/-- Helper: full case description of `WXUrlPath::matches` under a total
regex oracle. -/
theorem wxMatches_cases (rm : String → String → Bool) (p : WXUrlPath) (uri : String) :
    ∃ b : WXRTContext,
    wxMatches (rnewOf rm) p uri
      = some (if p.length = (getUrlSegments uri).length then
                (if segsAll rm p (getUrlSegments uri) = true
                 then WXPathResolution.Perfect b else WXPathResolution.NoneR)
              else if (getUrlSegments uri).length < p.length then
                (if segsAll rm p (getUrlSegments uri
                        ++ List.replicate (p.length - (getUrlSegments uri).length) "") = true
                    ∧ (getUrlSegments uri).length = p.length - 1
                 then WXPathResolution.PartialM b else WXPathResolution.NoneR)
              else WXPathResolution.NoneR) := by
  by_cases h1 : p.length = (getUrlSegments uri).length
  · obtain ⟨b', hall⟩ :=
      allMatch_total rm (p.zip (getUrlSegments uri)) WXRTContext.new
    refine ⟨b', ?_⟩
    simp only [wxMatches, WXUrlPath.segments, segsAll]
    rw [hall]
    by_cases hAll : (p.zip (getUrlSegments uri)).all
        (fun z => segMatchSpec rm z.1 z.2) = true
    · simp [h1, hAll]
    · simp [h1, hAll]
  · by_cases h2 : (getUrlSegments uri).length < p.length
    · obtain ⟨b', hall⟩ :=
        allMatch_total rm
          (p.zip (getUrlSegments uri
            ++ List.replicate (p.length - (getUrlSegments uri).length) ""))
          WXRTContext.new
      refine ⟨b', ?_⟩
      simp only [wxMatches, WXUrlPath.segments, segsAll]
      rw [hall]
      have h1' : ¬((p.length == (getUrlSegments uri).length) = true) := by
        simp [h1]
      by_cases hAll : (p.zip (getUrlSegments uri
          ++ List.replicate (p.length - (getUrlSegments uri).length) "")).all
            (fun z => segMatchSpec rm z.1 z.2) = true
      · by_cases hn : (getUrlSegments uri).length = p.length - 1
        · have hb1 : (((p.zip (getUrlSegments uri
              ++ List.replicate (p.length - (getUrlSegments uri).length) "")).all
                (fun z => segMatchSpec rm z.1 z.2))
              && ((getUrlSegments uri).length == p.length - 1)) = true := by
            rw [hAll]
            simp [hn]
          simp only [gt_iff_lt, if_neg h1', if_neg h1, if_pos h2]
          rw [if_pos hb1, if_pos (⟨hAll, hn⟩ : _ ∧ _)]
        · have hb1 : ¬((((p.zip (getUrlSegments uri
              ++ List.replicate (p.length - (getUrlSegments uri).length) "")).all
                (fun z => segMatchSpec rm z.1 z.2))
              && ((getUrlSegments uri).length == p.length - 1)) = true) := by
            rw [hAll]
            simp [hn]
          simp only [gt_iff_lt, if_neg h1', if_neg h1, if_pos h2]
          rw [if_neg hb1, if_neg (fun hc => hn hc.2)]
      · have hb1 : ¬((((p.zip (getUrlSegments uri
            ++ List.replicate (p.length - (getUrlSegments uri).length) "")).all
              (fun z => segMatchSpec rm z.1 z.2))
            && ((getUrlSegments uri).length == p.length - 1)) = true) := by
          intro hc
          rw [Bool.and_eq_true] at hc
          exact hAll hc.1
        simp only [gt_iff_lt, if_neg h1', if_neg h1, if_pos h2]
        rw [if_neg hb1, if_neg (fun hc => hAll hc.1)]
    · refine ⟨WXRTContext.new, ?_⟩
      simp only [wxMatches, WXUrlPath.segments, segsAll]
      simp [h1, h2]

/-- Claim C3 (amended): under a total regex oracle, `matches` returns a
Perfect match iff the pattern length equals the request token count and all
zipped segments match; it returns a Partial match iff the pattern has
exactly one more segment than the request and all pattern segments match
the request tokens extended with one empty token (so the extra trailing
segment must itself match the empty string); a pattern with two or more
extra segments never matches; and the empty pattern matches request path
`/` perfectly. -/
theorem wx_c3_matches_characterization (rm : String → String → Bool)
    (p : WXUrlPath) (uri : String) :
    ((∃ b, wxMatches (rnewOf rm) p uri = some (.Perfect b)) ↔
        (p.length = (getUrlSegments uri).length
          ∧ segsAll rm p (getUrlSegments uri) = true))
    ∧ ((∃ b, wxMatches (rnewOf rm) p uri = some (.PartialM b)) ↔
        (p.length = (getUrlSegments uri).length + 1
          ∧ segsAll rm p (getUrlSegments uri ++ [""]) = true))
    ∧ ((getUrlSegments uri).length + 2 ≤ p.length →
        wxMatches (rnewOf rm) p uri = some .NoneR)
    ∧ wxMatches (rnewOf rm) ([] : WXUrlPath) ("/") = some (.Perfect WXRTContext.new) := by
  obtain ⟨b0, hcase⟩ := wxMatches_cases rm p uri
  refine ⟨?_, ?_, ?_, rfl⟩
  · constructor
    · rintro ⟨b, hb⟩
      rw [hcase, Option.some.injEq] at hb
      by_cases h1 : p.length = (getUrlSegments uri).length
      · rw [if_pos h1] at hb
        by_cases hAll : segsAll rm p (getUrlSegments uri) = true
        · exact ⟨h1, hAll⟩
        · rw [if_neg hAll] at hb
          exact absurd hb (by simp)
      · rw [if_neg h1] at hb
        by_cases h2 : (getUrlSegments uri).length < p.length
        · rw [if_pos h2] at hb
          by_cases hc : segsAll rm p (getUrlSegments uri
              ++ List.replicate (p.length - (getUrlSegments uri).length) "") = true
              ∧ (getUrlSegments uri).length = p.length - 1
          · rw [if_pos hc] at hb
            exact absurd hb (by simp)
          · rw [if_neg hc] at hb
            exact absurd hb (by simp)
        · rw [if_neg h2] at hb
          exact absurd hb (by simp)
    · rintro ⟨h1, hAll⟩
      refine ⟨b0, ?_⟩
      rw [hcase, if_pos h1, if_pos hAll]
  · constructor
    · rintro ⟨b, hb⟩
      rw [hcase, Option.some.injEq] at hb
      by_cases h1 : p.length = (getUrlSegments uri).length
      · rw [if_pos h1] at hb
        by_cases hAll : segsAll rm p (getUrlSegments uri) = true
        · rw [if_pos hAll] at hb
          exact absurd hb (by simp)
        · rw [if_neg hAll] at hb
          exact absurd hb (by simp)
      · rw [if_neg h1] at hb
        by_cases h2 : (getUrlSegments uri).length < p.length
        · rw [if_pos h2] at hb
          by_cases hc : segsAll rm p (getUrlSegments uri
              ++ List.replicate (p.length - (getUrlSegments uri).length) "") = true
              ∧ (getUrlSegments uri).length = p.length - 1
          · have hlen : p.length = (getUrlSegments uri).length + 1 := by
              obtain ⟨-, hn⟩ := hc
              omega
            obtain ⟨hcl, -⟩ := hc
            have hone : p.length - (getUrlSegments uri).length = 1 := by omega
            rw [hone, List.replicate_one] at hcl
            exact ⟨hlen, hcl⟩
          · rw [if_neg hc] at hb
            exact absurd hb (by simp)
        · rw [if_neg h2] at hb
          exact absurd hb (by simp)
    · rintro ⟨hlen, hAll⟩
      refine ⟨b0, ?_⟩
      have h1 : ¬(p.length = (getUrlSegments uri).length) := by omega
      have h2 : (getUrlSegments uri).length < p.length := by omega
      have hone : p.length - (getUrlSegments uri).length = 1 := by omega
      have hc : segsAll rm p (getUrlSegments uri
          ++ List.replicate (p.length - (getUrlSegments uri).length) "") = true
          ∧ (getUrlSegments uri).length = p.length - 1 := by
        constructor
        · rw [hone, List.replicate_one]
          exact hAll
        · omega
      rw [hcase, if_neg h1, if_pos h2, if_pos hc]
  · intro hge
    have h1 : ¬(p.length = (getUrlSegments uri).length) := by omega
    have h2 : (getUrlSegments uri).length < p.length := by omega
    have hc : ¬(segsAll rm p (getUrlSegments uri
        ++ List.replicate (p.length - (getUrlSegments uri).length) "") = true
        ∧ (getUrlSegments uri).length = p.length - 1) := by
      rintro ⟨-, hn⟩
      omega
    rw [hcase, if_neg h1, if_pos h2, if_neg hc]

/-- Witness for `wx_c3_matches_characterization`: the pattern `/a/b` has
two segments more than the request `/`, so it does not match. -/
theorem wx_c3_matches_characterization_witness :
    wxMatches (rnewOf rmTrue) patAB ("/") = some .NoneR :=
  (wx_c3_matches_characterization rmTrue patAB ("/")).2.2.1 (by decide)

/-- Claim C3 (counterexample to the claim as stated): for the pattern
`/a/b` and the request `/a`, the pattern has exactly one more segment than
the request and every request token matches its pattern segment pairwise,
yet `matches` returns None rather than a Partial match (the trailing
segment `b` fails to match the empty padding token). -/
theorem wx_c3_counterexample :
    wxMatches (rnewOf rmFalse) patAB ("/a") = some .NoneR
    ∧ patAB.length = (getUrlSegments ("/a")).length + 1
    ∧ segsAll rmFalse patAB (getUrlSegments ("/a")) = true :=
  ⟨rfl, rfl, rfl⟩

/-- Claim C4 (amended): duplicate-route analysis fails — with error code 6
— iff some `FlatRoutes` entry collects more than one source location,
i.e. iff more than one declaration produces the same key (route method,
declared path of the route itself, full flattened path). -/
theorem wx_c4_duplicate_error_iff (modules : List WXModule) :
    analyzeDuplicateRoutes modules
        = .error ⟨ERROR_DUPLICATE_ROUTE, "Duplicate routes detected"⟩
    ↔ ∃ e ∈ extractFlatRoutes modules, 1 < e.2.length := by
  unfold analyzeDuplicateRoutes extractDuplicateRoutes
  cases hfe : (extractFlatRoutes modules).filter (fun e => decide (1 < e.2.length)) with
  | nil =>
    simp only [hfe, List.isEmpty_nil, Bool.not_true, Bool.false_eq_true, if_false]
    constructor
    · intro he
      exact absurd he (by simp)
    · rintro ⟨e, he, hlen⟩
      have hnone := List.filter_eq_nil_iff.mp hfe e he
      simp [hlen] at hnone
  | cons x xs =>
    simp only [hfe, List.isEmpty_cons, Bool.not_false, if_true]
    constructor
    · intro _
      have hx : x ∈ (extractFlatRoutes modules).filter (fun e => decide (1 < e.2.length)) := by
        rw [hfe]
        exact List.mem_cons_self x xs
      have hm := List.mem_filter.mp hx
      exact ⟨x, hm.1, of_decide_eq_true hm.2⟩
    · intro _
      trivial

/-- Witness for `wx_c4_duplicate_error_iff`: two modules both declaring
`get /x` (spec scenario 3) are rejected with error code 6. -/
theorem wx_c4_duplicate_error_iff_witness :
    analyzeDuplicateRoutes [exDupA, exDupB]
      = .error ⟨ERROR_DUPLICATE_ROUTE, "Duplicate routes detected"⟩ := by
  apply (wx_c4_duplicate_error_iff [exDupA, exDupB]).mpr
  refine ⟨((exRouteGET ("d1.webx") 1 [.literal ("x")], [.literal ("x")]),
           [⟨"d1.webx", 1⟩, ⟨"d2.webx", 1⟩]), ?_, ?_⟩
  · have hm : extractFlatRoutes [exDupA, exDupB]
        = [((exRouteGET ("d1.webx") 1 [.literal ("x")], [.literal ("x")]),
            [⟨"d1.webx", 1⟩, ⟨"d2.webx", 1⟩])] := rfl
    rw [hm]
    exact List.mem_singleton.mpr rfl
  · exact Nat.one_lt_two

/-- Claim C10 (code evaluation at the failing input): the parser stores the
pattern `*` under the generated name `g0` for a wildcard segment, the
external regex crate rejects `*` (repetition operator with no expression),
and therefore `WXUrlPath::matches` panics (`none`) on any request once it
examines a wildcard segment — `matches` is not total on parser-generated
paths. -/
theorem wx_c10_wildcard_regex_panics :
    wildcardSegment 0 = WXUrlPathSegment.regex ("g0") ("*")
    ∧ regexCrateNew ("*") = none
    ∧ wxMatches regexCrateNew [wildcardSegment 0] ("/a") = none :=
  ⟨rfl, rfl, rfl⟩

end WebX
